import Mathlib

/-!
Verification of the session/conversation core of a conversational
image-generation service (`src/main.py`).

The embedding models the `SessionManager` store (a Python dict mapping
session ids to sessions, each session a dict with a `title` and an ordered
`messages` list) as an association list, and the three Flask workflows
(`/generate`, `/regenerate`, `/update_status`) as pure functions over a
server state holding the in-memory store and the persisted document.
The opaque image-generation capability and the `uuid4().hex` source are
supplied by an environment record: the capability is a function from the
prompt to either an error string or a generated image path, and each
`uuid.uuid4().hex` call site receives its hex string from the environment.
-/

/-- Mirrors the message dicts written by `main.py`: the `text`, `image_url`
and `status` values are optional (Python `None` or an absent key is `none`). -/
structure Message where
  id : String
  sender : String
  text : Option String := none
  image_url : Option String := none
  status : Option String := none
deriving Repr, DecidableEq

/-- Mirrors one session value of `SessionManager.sessions`:
a `title` and an ordered list of messages. -/
structure Session where
  title : String
  messages : List Message
deriving Repr, DecidableEq

/-- The `SessionManager.sessions` dict, as an insertion-ordered association
list from session id to session (Python dict keys are unique; the
operations below act on the first occurrence of a key, matching dicts). -/
abbrev Store := List (String × Session)

namespace SessionManager

/-- Python `self.sessions.get(session_id)` (`SessionManager.get`). -/
def get (store : Store) (session_id : String) : Option Session :=
  match store with
  | [] => none
  | (sid, sess) :: rest => if sid == session_id then some sess else get rest session_id

/-- Python dict assignment `self.sessions[session_id] = ...`: replaces the
value at an existing key in place, otherwise appends the new key. -/
def setSession (store : Store) (session_id : String) (sess : Session) : Store :=
  match store with
  | [] => [(session_id, sess)]
  | (k, v) :: rest =>
    if k == session_id then (k, sess) :: rest
    else (k, v) :: setSession rest session_id sess

/-- The title derivation inline in `SessionManager.create`:
Python `prompt[:30] + ("..." if len(prompt) > 30 else "")`. -/
def titleOf (prompt : String) : String :=
  prompt.take 30 ++ (if prompt.length > 30 then "..." else "")

/-- Python `SessionManager.create`: `session_id = uuid.uuid4().hex[:8]`,
then installs a session with the derived title and empty message list.
The `uuid.uuid4().hex` result is passed in as `uuidHex`. -/
def create (store : Store) (uuidHex : String) (prompt : String) : Store × String :=
  let session_id := uuidHex.take 8
  (setSession store session_id { title := titleOf prompt, messages := [] }, session_id)

/-- Python `SessionManager.add_message`: appends to the session's message
list when the session id exists, silently does nothing otherwise. -/
def add_message (store : Store) (session_id : String) (message : Message) : Store :=
  match store with
  | [] => []
  | (k, v) :: rest =>
    if k == session_id then (k, { v with messages := v.messages ++ [message] }) :: rest
    else (k, v) :: add_message rest session_id message

/-- The inner loop of `SessionManager.update_message_status` on one
session's message list: sets `status` on the first message whose id
matches and reports whether a match was found. -/
def setMsgStatus (msgs : List Message) (message_id status : String) :
    List Message × Bool :=
  match msgs with
  | [] => ([], false)
  | m :: rest =>
    if m.id == message_id then ({ m with status := some status } :: rest, true)
    else
      let r := setMsgStatus rest message_id status
      (m :: r.1, r.2)

/-- Python `SessionManager.update_message_status`: linear scan over all
sessions in order, mutating the first message whose id matches and
returning whether a match was found. -/
def update_message_status (store : Store) (message_id status : String) :
    Store × Bool :=
  match store with
  | [] => ([], false)
  | (sid, sess) :: rest =>
    let m := setMsgStatus sess.messages message_id status
    if m.2 then ((sid, { sess with messages := m.1 }) :: rest, true)
    else
      let r := update_message_status rest message_id status
      ((sid, sess) :: r.1, r.2)

/-- The inner loop of `SessionManager.find_message_prompt` on one session:
walks the messages with `prev` holding `messages[i - 1]`; at the first id
match, returns the previous message's `text` when that previous message
exists and has `sender == "user"`, else the matched message's own `text`
(Python `msg.get("text", "")`, with an absent or `None` text read back as
the stored optional value). -/
def findPromptInMessages (msgs : List Message) (message_id : String)
    (prev : Option Message) : Option (Option String) :=
  match msgs with
  | [] => none
  | m :: rest =>
    if m.id == message_id then
      match prev with
      | some p => if p.sender == "user" then some p.text else some m.text
      | none => some m.text
    else findPromptInMessages rest message_id (some m)

/-- Python `SessionManager.find_message_prompt`: scans sessions in order and
returns `(session_id, prompt_text)` for the first message whose id
matches, or `None` when no session holds the id. -/
def find_message_prompt (store : Store) (message_id : String) :
    Option (String × Option String) :=
  match store with
  | [] => none
  | (sid, sess) :: rest =>
    match findPromptInMessages sess.messages message_id none with
    | some t => some (sid, t)
    | none => find_message_prompt rest message_id

/-- Python `SessionManager.get_all_prompts`: the texts of the session's
user-sent messages with truthy text, joined with the literal `". "`;
an absent session yields the empty string. -/
def get_all_prompts (store : Store) (session_id : String) : String :=
  match get store session_id with
  | none => ""
  | some session =>
    String.intercalate ". "
      ((session.messages.filter
          (fun msg => msg.sender == "user" && msg.text.getD "" != "")).map
        (fun msg => msg.text.getD ""))

end SessionManager

/-- Server state visible to the workflows: the in-memory
`session_manager.sessions` and the current content of the persisted
sessions document (`sessions.json`). -/
structure ServerState where
  sessions : Store
  persisted : Store
deriving Repr, DecidableEq

/-- Python `SessionManager.save`: rewrites the persisted document in full
from the in-memory store. -/
def save (st : ServerState) : ServerState :=
  { st with persisted := st.sessions }

/-- Environment of one request: the opaque image-generation capability
(`ImageGenerator.generate`, returning an error or a relative image path
such as `generated/xxxxxxxx.png`) and the `uuid.uuid4().hex` strings drawn
at the session-creation and the three message-id call sites. -/
structure GenEnv where
  generate : String → Except String String
  sessionUuidHex : String
  userUuidHex : String
  botUuidHex : String
  boomUuidHex : String

/-- Fixed closing acknowledgement bot message text in `main.py`. -/
def boomText : String :=
  "💥 Boom! Image is generated, do you want H&C to help you with anything else?"

/-- Outcome of the `/generate` route. -/
inductive GenerateResult where
  | emptyPrompt
  | generationFailed (error : String)
  | success (session_id image_url message_id : String)
deriving Repr, DecidableEq

/-- Outcome of the `/regenerate` route. -/
inductive RegenerateResult where
  | missingMessageId
  | messageNotFound
  | noValidPrompt
  | generationFailed (error : String)
  | success (session_id prompt image_url message_id : String)
deriving Repr, DecidableEq

/-- Outcome of the `/update_status` route. -/
inductive UpdateStatusResult where
  | missingFields
  | messageNotFound
  | success
deriving Repr, DecidableEq

/-- The session-resolution test of the `/generate` route, Python
`if session_id and session_manager.get(session_id):` (a missing or empty
`session_id` is falsy; `get` returning a session dict is truthy). -/
def sessionResolves (store : Store) (session_id? : Option String) : Bool :=
  match session_id? with
  | some s => s != "" && (SessionManager.get store s).isSome
  | none => false

/-- The "Handle session logic" block of `generate_image` (`main.py` lines
232-241): returns the session id used, the effective prompt handed to the
generator, and the possibly extended store. -/
def resolve_session_and_prompt (env : GenEnv) (store : Store)
    (session_id? : Option String) (prompt_new : String) :
    String × String × Store :=
  match session_id? with
  | some session_id =>
    if session_id != "" && (SessionManager.get store session_id).isSome then
      let old_prompts := SessionManager.get_all_prompts store session_id
      (session_id,
       (if old_prompts != "" then old_prompts ++ ". " ++ prompt_new else prompt_new),
       store)
    else
      let r := SessionManager.create store env.sessionUuidHex prompt_new
      (r.2, prompt_new, r.1)
  | none =>
    let r := SessionManager.create store env.sessionUuidHex prompt_new
    (r.2, prompt_new, r.1)

/-- The `/generate` route (`generate_image` in `main.py`), with `prompt_new`
the already stripped prompt string. The `try`/`except` around the body
surfaces a generation failure as a 500 response; any store mutation made
before the failure (session creation) is kept, and nothing is persisted. -/
def generate_image (env : GenEnv) (st : ServerState)
    (session_id? : Option String) (prompt_new : String) :
    GenerateResult × ServerState :=
  if prompt_new == "" then (.emptyPrompt, st)
  else
    let r := resolve_session_and_prompt env st.sessions session_id? prompt_new
    let session_id := r.1
    let prompt := r.2.1
    let store1 := r.2.2
    match env.generate prompt with
    | .error e =>
      (.generationFailed ("Image generation failed: " ++ e),
       { st with sessions := store1 })
    | .ok image_path =>
      let user_id := env.userUuidHex.take 8
      let bot_id := env.botUuidHex.take 8
      let boom_id := env.boomUuidHex.take 8
      let store2 := SessionManager.add_message store1 session_id
        { id := user_id, sender := "user", text := some prompt_new }
      let store3 := SessionManager.add_message store2 session_id
        { id := bot_id, sender := "bot",
          image_url := some ("/static/" ++ image_path),
          text := some ("Image is generated from prompt:\n" ++ prompt),
          status := none }
      let store4 := SessionManager.add_message store3 session_id
        { id := boom_id, sender := "bot", text := some boomText }
      let st2 := save { st with sessions := store4 }
      (.success session_id ("/static/" ++ image_path) bot_id, st2)

/-- The `/regenerate` route (`regenerate` in `main.py`). -/
def regenerate (env : GenEnv) (st : ServerState)
    (message_id? : Option String) : RegenerateResult × ServerState :=
  let message_id := message_id?.getD ""
  if message_id == "" then (.missingMessageId, st)
  else
    match SessionManager.find_message_prompt st.sessions message_id with
    | none => (.messageNotFound, st)
    | some (session_id, prompt?) =>
      let prompt := prompt?.getD ""
      if prompt == "" then (.noValidPrompt, st)
      else
        match env.generate prompt with
        | .error e =>
          (.generationFailed ("Image generation failed: " ++ e), st)
        | .ok image_path =>
          let new_user_id := env.userUuidHex.take 8
          let new_bot_id := env.botUuidHex.take 8
          let boom_id := env.boomUuidHex.take 8
          let s1 := SessionManager.add_message st.sessions session_id
            { id := new_user_id, sender := "user", text := some prompt }
          let s2 := SessionManager.add_message s1 session_id
            { id := new_bot_id, sender := "bot",
              image_url := some ("/static/" ++ image_path),
              text := some prompt, status := none }
          let s3 := SessionManager.add_message s2 session_id
            { id := boom_id, sender := "bot", text := some boomText }
          let st2 := save { st with sessions := s3 }
          (.success session_id prompt ("/static/" ++ image_path) new_bot_id, st2)

/-- The `/update_status` route (`update_status` in `main.py`): missing or
falsy fields give a client error; otherwise delegates to
`update_message_status` and persists only when a match was found. -/
def update_status (st : ServerState) (message_id? status? : Option String) :
    UpdateStatusResult × ServerState :=
  let message_id := message_id?.getD ""
  let status := status?.getD ""
  if message_id == "" || status == "" then (.missingFields, st)
  else
    let r := SessionManager.update_message_status st.sessions message_id status
    if r.2 then (.success, save { st with sessions := r.1 })
    else (.messageNotFound, { st with sessions := r.1 })

/-- True when some message in the list has the given id. -/
def msgsHaveId (msgs : List Message) (mid : String) : Bool :=
  msgs.any (fun m => m.id == mid)

/-- True when some message in some session of the store has the given id. -/
def storeHasMsgId (store : Store) (mid : String) : Bool :=
  store.any (fun p => msgsHaveId p.2.messages mid)

/-- Formulation of the spec's prompt-history selection: the texts of
exactly the user-sent messages with non-empty text, in message order. -/
def specUserPromptTexts (msgs : List Message) : List String :=
  msgs.filterMap (fun m =>
    m.text.bind (fun t => if m.sender = "user" ∧ t ≠ "" then some t else none))

/-- The sixteen characters that uuid4().hex strings are made of. -/
def hexDigits : List Char := "0123456789abcdef".data

/-- Message list of the C4 example: user texts "a", "", "b" with an
interleaved bot message. -/
def exampleMessagesC4 : List Message :=
  [ { id := "m1", sender := "user", text := some "a" },
    { id := "m2", sender := "user", text := some "" },
    { id := "m3", sender := "bot", text := some "pic",
      image_url := some "/static/generated/x.png" },
    { id := "m4", sender := "user", text := some "b" } ]

/-- Store holding the C4 example session. -/
def exampleStoreC4 : Store :=
  [("s1", { title := "a", messages := exampleMessagesC4 })]

/-- Concrete environment whose generation capability always fails. -/
def envFail : GenEnv :=
  { generate := fun _ => Except.error "CUDA out of memory",
    sessionUuidHex := "0123456789abcdef0123456789abcdef",
    userUuidHex := "11111111111111111111111111111111",
    botUuidHex := "22222222222222222222222222222222",
    boomUuidHex := "33333333333333333333333333333333" }

/-- Concrete environment whose generation capability always succeeds with
a fixed image path. -/
def envOk : GenEnv :=
  { generate := fun _ => Except.ok "generated/deadbeef.png",
    sessionUuidHex := "0123456789abcdef0123456789abcdef",
    userUuidHex := "11111111111111111111111111111111",
    botUuidHex := "22222222222222222222222222222222",
    boomUuidHex := "33333333333333333333333333333333" }

namespace SessionManager

theorem get_setSession_self (store : Store) (k : String) (v : Session) :
    get (setSession store k v) k = some v := by
  induction store with
  | nil => simp [setSession, get]
  | cons hd tl ih =>
    obtain ⟨k0, v0⟩ := hd
    by_cases h : k0 = k
    · simp [setSession, get, h]
    · simp [setSession, get, h, ih]

theorem get_setSession_ne (store : Store) (k k2 : String) (v : Session)
    (h : k2 ≠ k) : get (setSession store k v) k2 = get store k2 := by
  induction store with
  | nil => simp [setSession, get, Ne.symm h]
  | cons hd tl ih =>
    obtain ⟨k0, v0⟩ := hd
    by_cases h0 : k0 = k
    · subst h0
      simp [setSession, get, Ne.symm h]
    · simp [setSession, get, h0, ih]

theorem get_add_message (store : Store) (k : String) (m : Message)
    (sess : Session) (h : get store k = some sess) :
    get (add_message store k m) k
      = some { sess with messages := sess.messages ++ [m] } := by
  induction store with
  | nil => simp [get] at h
  | cons hd tl ih =>
    obtain ⟨k0, v0⟩ := hd
    by_cases h0 : k0 = k
    · simp [get, h0] at h
      simp [add_message, get, h0, h]
    · simp [get, h0] at h
      simp [add_message, get, h0, ih h]

theorem get_add_message_ne (store : Store) (k k2 : String) (m : Message)
    (h : k2 ≠ k) : get (add_message store k m) k2 = get store k2 := by
  induction store with
  | nil => simp [add_message]
  | cons hd tl ih =>
    obtain ⟨k0, v0⟩ := hd
    by_cases h0 : k0 = k
    · subst h0
      simp [add_message, get, Ne.symm h]
    · simp [add_message, get, h0, ih]

theorem userPromptTexts_eq (msgs : List Message) :
    (msgs.filter (fun msg => msg.sender == "user" && msg.text.getD "" != "")).map
        (fun msg => msg.text.getD "")
      = specUserPromptTexts msgs := by
  induction msgs with
  | nil => simp [specUserPromptTexts]
  | cons m rest ih =>
    simp only [specUserPromptTexts, List.filterMap_cons] at ih ⊢
    cases ht : m.text with
    | none =>
      simp [List.filter_cons, ht, ih]
    | some t =>
      by_cases hs : m.sender = "user"
      · by_cases he : t = ""
        · simp [List.filter_cons, ht, hs, he, ih]
        · simp [List.filter_cons, ht, hs, he, ih]
      · simp [List.filter_cons, ht, hs, ih]

end SessionManager

theorem resolve_resolving (env : GenEnv) (store : Store) (s prompt_new : String)
    (hne : s ≠ "") (hsome : (SessionManager.get store s).isSome) :
    resolve_session_and_prompt env store (some s) prompt_new
      = (s,
         (if SessionManager.get_all_prompts store s = ""
          then prompt_new
          else SessionManager.get_all_prompts store s ++ ". " ++ prompt_new),
         store) := by
  have hcond : (s != "" && (SessionManager.get store s).isSome) = true := by
    simp [hne, hsome]
  simp only [resolve_session_and_prompt, hcond, if_true]
  by_cases hh : SessionManager.get_all_prompts store s = ""
  · simp [hh]
  · simp [hh]

theorem resolve_not_resolving (env : GenEnv) (store : Store)
    (session_id? : Option String) (prompt_new : String)
    (hF : sessionResolves store session_id? = false) :
    resolve_session_and_prompt env store session_id? prompt_new
      = (env.sessionUuidHex.take 8, prompt_new,
         SessionManager.setSession store (env.sessionUuidHex.take 8)
           { title := SessionManager.titleOf prompt_new, messages := [] }) := by
  cases session_id? with
  | none =>
    simp only [resolve_session_and_prompt]
    simp only [SessionManager.create]
  | some s =>
    have hc : (s != "" && (SessionManager.get store s).isSome) = false := hF
    simp only [resolve_session_and_prompt, hc, Bool.false_eq_true, if_false]
    simp only [SessionManager.create]

theorem resolve_store_cases (env : GenEnv) (store : Store)
    (session_id? : Option String) (prompt_new : String) :
    (resolve_session_and_prompt env store session_id? prompt_new).2.2 = store ∨
    (resolve_session_and_prompt env store session_id? prompt_new).2.2
      = SessionManager.setSession store (env.sessionUuidHex.take 8)
          { title := SessionManager.titleOf prompt_new, messages := [] } := by
  cases hSR : sessionResolves store session_id? with
  | false =>
    exact Or.inr
      (by rw [resolve_not_resolving env store session_id? prompt_new hSR])
  | true =>
    cases session_id? with
    | none => simp [sessionResolves] at hSR
    | some s =>
      have hc : (s != "" && (SessionManager.get store s).isSome) = true := hSR
      left
      simp only [resolve_session_and_prompt, hc, if_true]

theorem resolve_get_target (env : GenEnv) (store : Store)
    (session_id? : Option String) (prompt_new sid p : String) (store1 : Store)
    (hr : resolve_session_and_prompt env store session_id? prompt_new
        = (sid, p, store1)) :
    ∃ sess1, SessionManager.get store1 sid = some sess1 := by
  cases hSR : sessionResolves store session_id? with
  | false =>
    rw [resolve_not_resolving env store session_id? prompt_new hSR] at hr
    injection hr with h1 h23
    injection h23 with h2 h3
    subst h1
    subst h3
    exact ⟨_, SessionManager.get_setSession_self store _ _⟩
  | true =>
    cases session_id? with
    | none => simp [sessionResolves] at hSR
    | some s =>
      have hc : (s != "" && (SessionManager.get store s).isSome) = true := hSR
      have hsome : (SessionManager.get store s).isSome := by
        simpa using (Bool.and_elim_right hc)
      obtain ⟨sess1, hs1⟩ := Option.isSome_iff_exists.mp hsome
      simp only [resolve_session_and_prompt, hc, if_true] at hr
      injection hr with h1 h23
      injection h23 with h2 h3
      subst h1
      subst h3
      exact ⟨sess1, hs1⟩

/-- Claim C4: for every session, get_all_prompts returns the texts of
exactly the user-sent messages with non-empty text, in append order,
joined with the literal separator ". "; a session with no messages or an
absent session id yields the empty string; and user messages
["a", "", "b"] with an interleaved bot message yield exactly "a. b". -/
theorem get_all_prompts_spec (store : Store) (session_id : String) :
    (SessionManager.get store session_id = none →
      SessionManager.get_all_prompts store session_id = "") ∧
    (∀ sess, SessionManager.get store session_id = some sess →
      SessionManager.get_all_prompts store session_id
        = String.intercalate ". " (specUserPromptTexts sess.messages)) ∧
    (∀ sess, SessionManager.get store session_id = some sess →
      sess.messages = [] →
      SessionManager.get_all_prompts store session_id = "") ∧
    SessionManager.get_all_prompts exampleStoreC4 "s1" = "a. b" := by
  refine ⟨?_, ?_, ?_, ?_⟩
  · intro h
    simp [SessionManager.get_all_prompts, h]
  · intro sess h
    simp [SessionManager.get_all_prompts, h, SessionManager.userPromptTexts_eq]
  · intro sess h hm
    simp [SessionManager.get_all_prompts, h, hm]
    rfl
  · decide

/-- Witness for get_all_prompts_spec: the absent-session and
existing-session conclusions at concrete inputs. -/
theorem get_all_prompts_spec_witness :
    SessionManager.get_all_prompts [] "nosuch" = "" ∧
    SessionManager.get_all_prompts exampleStoreC4 "s1"
      = String.intercalate ". " (specUserPromptTexts exampleMessagesC4) :=
  ⟨(get_all_prompts_spec [] "nosuch").1 rfl,
   (get_all_prompts_spec exampleStoreC4 "s1").2.1
     { title := "a", messages := exampleMessagesC4 } rfl⟩

/-- Claim C2: for a generate request with non-empty prompt_new, when the
supplied session_id resolves to an existing session the effective prompt
handed to the generation capability is the concatenated prompt history
followed by ". " and prompt_new (or prompt_new alone when the history is
empty) and the store is untouched; otherwise a fresh session seeded with
prompt_new is created and the effective prompt is prompt_new alone. -/
theorem effective_prompt_policy (env : GenEnv) (store : Store)
    (session_id? : Option String) (prompt_new : String) :
    (∀ s, session_id? = some s → s ≠ "" →
      (SessionManager.get store s).isSome →
      resolve_session_and_prompt env store session_id? prompt_new
        = (s,
           (if SessionManager.get_all_prompts store s = ""
            then prompt_new
            else SessionManager.get_all_prompts store s ++ ". " ++ prompt_new),
           store)) ∧
    (sessionResolves store session_id? = false →
      resolve_session_and_prompt env store session_id? prompt_new
        = (env.sessionUuidHex.take 8, prompt_new,
           SessionManager.setSession store (env.sessionUuidHex.take 8)
             { title := SessionManager.titleOf prompt_new, messages := [] }) ∧
      SessionManager.get
        (resolve_session_and_prompt env store session_id? prompt_new).2.2
        (env.sessionUuidHex.take 8)
        = some { title := SessionManager.titleOf prompt_new, messages := [] }) := by
  constructor
  · intro s hs hne hsome
    subst hs
    exact resolve_resolving env store s prompt_new hne hsome
  · intro hF
    constructor
    · exact resolve_not_resolving env store session_id? prompt_new hF
    · rw [resolve_not_resolving env store session_id? prompt_new hF]
      exact SessionManager.get_setSession_self store _ _

/-- Witness for effective_prompt_policy: a resolving session with prior
history "a. b" and a fresh-session request, both at concrete inputs. -/
theorem effective_prompt_policy_witness :
    (resolve_session_and_prompt
        { generate := fun _ => Except.ok "generated/i.png",
          sessionUuidHex := "ffffffffffffffffffffffffffffffff",
          userUuidHex := "u", botUuidHex := "b", boomUuidHex := "m" }
        exampleStoreC4 (some "s1") "c"
      = ("s1",
         (if SessionManager.get_all_prompts exampleStoreC4 "s1" = ""
          then "c"
          else SessionManager.get_all_prompts exampleStoreC4 "s1" ++ ". " ++ "c"),
         exampleStoreC4)) ∧
    (resolve_session_and_prompt
        { generate := fun _ => Except.ok "generated/i.png",
          sessionUuidHex := "ffffffffffffffffffffffffffffffff",
          userUuidHex := "u", botUuidHex := "b", boomUuidHex := "m" }
        [] none "c").2.1 = "c" := by
  constructor
  · exact (effective_prompt_policy _ exampleStoreC4 (some "s1") "c").1
      "s1" rfl (by decide) (by decide)
  · exact congrArg (fun p => p.2.1)
      (((effective_prompt_policy _ [] none "c").2 (by decide)).1)

/-- Claim C9: create returns the 8-character hex prefix of the drawn
uuid4 hex string as the session id and initializes the session with an
empty message list and a title equal to the first 30 characters of the
founding prompt followed by "..." when the prompt is longer than 30
characters, and to the prompt unchanged otherwise. The uuid4 library
contract (a 32-character lowercase hex string) and the freshness of the
drawn id in this store are hypotheses. -/
theorem create_spec (store : Store) (uuidHex prompt : String)
    (hlen : uuidHex.length = 32)
    (hhex : ∀ c ∈ uuidHex.data, c ∈ hexDigits)
    (hfresh : SessionManager.get store (uuidHex.take 8) = none) :
    ((SessionManager.create store uuidHex prompt).2).length = 8 ∧
    (∀ c ∈ ((SessionManager.create store uuidHex prompt).2).data, c ∈ hexDigits) ∧
    SessionManager.get store (SessionManager.create store uuidHex prompt).2 = none ∧
    SessionManager.get (SessionManager.create store uuidHex prompt).1
        (SessionManager.create store uuidHex prompt).2
      = some { title := SessionManager.titleOf prompt, messages := [] } ∧
    (∀ k, k ≠ (SessionManager.create store uuidHex prompt).2 →
      SessionManager.get (SessionManager.create store uuidHex prompt).1 k
        = SessionManager.get store k) ∧
    (prompt.length > 30 →
      SessionManager.titleOf prompt = prompt.take 30 ++ "...") ∧
    (prompt.length ≤ 30 → SessionManager.titleOf prompt = prompt) := by
  have hsnd : (SessionManager.create store uuidHex prompt).2 = uuidHex.take 8 := by
    simp only [SessionManager.create]
  have hfst : (SessionManager.create store uuidHex prompt).1
      = SessionManager.setSession store (uuidHex.take 8)
          { title := SessionManager.titleOf prompt, messages := [] } := by
    simp only [SessionManager.create]
  refine ⟨?_, ?_, ?_, ?_, ?_, ?_, ?_⟩
  · rw [hsnd, String.take_eq, ← String.length_data]
    simp only [List.length_take]
    have hd : uuidHex.data.length = 32 := hlen
    omega
  · intro c hc
    rw [hsnd, String.take_eq] at hc
    exact hhex c (List.mem_of_mem_take hc)
  · rw [hsnd]
    exact hfresh
  · rw [hsnd, hfst]
    exact SessionManager.get_setSession_self store _ _
  · intro k hk
    rw [hsnd] at hk
    rw [hfst]
    exact SessionManager.get_setSession_ne store _ k _ hk
  · intro hgt
    simp [SessionManager.titleOf, hgt]
  · intro hle
    have hnot : ¬ prompt.length > 30 := by omega
    simp only [SessionManager.titleOf, hnot, if_false]
    rw [String.append_empty, String.take_eq]
    ext1
    exact List.take_of_length_le hle

/-- Witness for create_spec: a concrete uuid hex string and a short
founding prompt. -/
theorem create_spec_witness :
    ((SessionManager.create [] "0123456789abcdef0123456789abcdef" "hello").2).length
        = 8 ∧
    SessionManager.get
        (SessionManager.create [] "0123456789abcdef0123456789abcdef" "hello").1
        (SessionManager.create [] "0123456789abcdef0123456789abcdef" "hello").2
      = some { title := SessionManager.titleOf "hello", messages := [] } :=
  ⟨(create_spec [] "0123456789abcdef0123456789abcdef" "hello"
      (by decide) (by decide) rfl).1,
   (create_spec [] "0123456789abcdef0123456789abcdef" "hello"
      (by decide) (by decide) rfl).2.2.2.1⟩

theorem generate_image_fail (env : GenEnv) (st : ServerState)
    (session_id? : Option String) (prompt_new e : String)
    (hp : prompt_new ≠ "")
    (hfail : env.generate
        (resolve_session_and_prompt env st.sessions session_id? prompt_new).2.1
      = Except.error e) :
    generate_image env st session_id? prompt_new
      = (GenerateResult.generationFailed ("Image generation failed: " ++ e),
         { st with sessions :=
            (resolve_session_and_prompt env st.sessions session_id? prompt_new).2.2 }) := by
  have hpne : (prompt_new == "") = false := by simp [hp]
  simp only [generate_image, hpne, Bool.false_eq_true, if_false, hfail]

theorem generate_image_ok (env : GenEnv) (st : ServerState)
    (session_id? : Option String) (prompt_new image_path : String)
    (hp : prompt_new ≠ "")
    (hok : env.generate
        (resolve_session_and_prompt env st.sessions session_id? prompt_new).2.1
      = Except.ok image_path) :
    generate_image env st session_id? prompt_new
      = (GenerateResult.success
          (resolve_session_and_prompt env st.sessions session_id? prompt_new).1
          ("/static/" ++ image_path) (env.botUuidHex.take 8),
         save { st with sessions :=
           (SessionManager.add_message
             (SessionManager.add_message
               (SessionManager.add_message
                 (resolve_session_and_prompt env st.sessions session_id? prompt_new).2.2
                 (resolve_session_and_prompt env st.sessions session_id? prompt_new).1
                 { id := env.userUuidHex.take 8, sender := "user",
                   text := some prompt_new, image_url := none, status := none })
               (resolve_session_and_prompt env st.sessions session_id? prompt_new).1
               { id := env.botUuidHex.take 8, sender := "bot",
                 image_url := some ("/static/" ++ image_path),
                 text := some ("Image is generated from prompt:\n"
                   ++ (resolve_session_and_prompt env st.sessions session_id? prompt_new).2.1),
                 status := none })
             (resolve_session_and_prompt env st.sessions session_id? prompt_new).1
             { id := env.boomUuidHex.take 8, sender := "bot", text := some boomText,
               image_url := none, status := none }) }) := by
  have hpne : (prompt_new == "") = false := by simp [hp]
  simp only [generate_image, hpne, Bool.false_eq_true, if_false, hok]

theorem regenerate_ok (env : GenEnv) (st : ServerState) (mid sid0 : String)
    (prompt0? : Option String) (image_path : String)
    (hmid : (mid == "") = false)
    (hfind : SessionManager.find_message_prompt st.sessions mid = some (sid0, prompt0?))
    (hp : (prompt0?.getD "" == "") = false)
    (hok : env.generate (prompt0?.getD "") = Except.ok image_path) :
    regenerate env st (some mid)
      = (RegenerateResult.success sid0 (prompt0?.getD "")
          ("/static/" ++ image_path) (env.botUuidHex.take 8),
         save { st with sessions :=
           (SessionManager.add_message
             (SessionManager.add_message
               (SessionManager.add_message st.sessions sid0
                 { id := env.userUuidHex.take 8, sender := "user",
                   text := some (prompt0?.getD ""), image_url := none, status := none })
               sid0
               { id := env.botUuidHex.take 8, sender := "bot",
                 image_url := some ("/static/" ++ image_path),
                 text := some (prompt0?.getD ""), status := none })
             sid0
             { id := env.boomUuidHex.take 8, sender := "bot", text := some boomText,
               image_url := none, status := none }) }) := by
  simp only [regenerate, Option.getD_some, hmid, Bool.false_eq_true, if_false,
    hfind, hp, hok]

/-- Claim C1 counterexample: a generate request with no session_id and a
failing generation capability aborts with the generation-failure error,
yet session state is mutated: a fresh session has been created, so the
in-memory store grows from zero sessions to one. -/
theorem generation_failure_creates_session :
    (generate_image envFail { sessions := [], persisted := [] } none "a cat").1
      = GenerateResult.generationFailed
          "Image generation failed: CUDA out of memory" ∧
    ((generate_image envFail
        { sessions := [], persisted := [] } none "a cat").2).sessions.length = 1 := by
  decide

/-- Claim C1 (amended): when the image-generation capability fails, the
new-generation workflow aborts with a generation-failure server error, the
persisted document is untouched, and no messages are appended: a supplied
session_id resolving to an existing session leaves the whole state
unchanged (so the target session's message count is unchanged), and every
pre-existing session other than the freshly drawn id keeps its messages;
but in the fresh-session path a newly created empty session remains in the
in-memory store. -/
theorem generation_failure_aborts (env : GenEnv) (st : ServerState)
    (session_id? : Option String) (prompt_new e : String)
    (hp : prompt_new ≠ "") (hfail : ∀ q, env.generate q = Except.error e) :
    (generate_image env st session_id? prompt_new).1
      = GenerateResult.generationFailed ("Image generation failed: " ++ e) ∧
    ((generate_image env st session_id? prompt_new).2).persisted = st.persisted ∧
    (∀ s sess, session_id? = some s → s ≠ "" →
      SessionManager.get st.sessions s = some sess →
      (generate_image env st session_id? prompt_new).2 = st) ∧
    (∀ s sess, SessionManager.get st.sessions s = some sess →
      s ≠ env.sessionUuidHex.take 8 →
      SessionManager.get ((generate_image env st session_id? prompt_new).2).sessions s
        = some sess) := by
  have hfail1 :=
    hfail (resolve_session_and_prompt env st.sessions session_id? prompt_new).2.1
  have hG := generate_image_fail env st session_id? prompt_new e hp hfail1
  refine ⟨?_, ?_, ?_, ?_⟩
  · rw [hG]
  · rw [hG]
  · intro s sess hs hne hget
    subst hs
    have hres := resolve_resolving env st.sessions s prompt_new hne (by simp [hget])
    rw [hG, hres]
  · intro s sess hget hne
    rw [hG]
    rcases resolve_store_cases env st.sessions session_id? prompt_new with hcase | hcase
    · rw [hcase]
      exact hget
    · rw [hcase]
      rw [SessionManager.get_setSession_ne st.sessions _ s _ hne]
      exact hget

/-- Witness for generation_failure_aborts: a failing generate against an
existing session leaves the server state unchanged. -/
theorem generation_failure_aborts_witness :
    (generate_image envFail
        { sessions := exampleStoreC4, persisted := exampleStoreC4 }
        (some "s1") "a cat").2
      = { sessions := exampleStoreC4, persisted := exampleStoreC4 } :=
  (generation_failure_aborts envFail
      { sessions := exampleStoreC4, persisted := exampleStoreC4 }
      (some "s1") "a cat" "CUDA out of memory"
      (by decide) (fun _ => rfl)).2.2.1 "s1"
    { title := "a", messages := exampleMessagesC4 } rfl (by decide) rfl

/-- Claim C6 counterexample: create is a mutating operation after which the
persisted document is not rewritten — in a failing generate run with no
session_id, the store has been mutated by create while the persisted
document still holds the old (empty) content. -/
theorem create_not_persisted :
    ((generate_image envFail
        { sessions := [], persisted := [] } none "a cat").2).sessions
      ≠ ((generate_image envFail
        { sessions := [], persisted := [] } none "a cat").2).persisted := by
  decide

/-- Claim C6 (amended): the persisted document is rewritten in full once
per completed workflow, not after each mutating store operation: after a
successful generate, a successful regenerate, or a status update that
found its message, the persisted document equals the in-memory store;
mutations of a workflow that aborts (generation failure after session
creation) remain unpersisted. -/
theorem persist_once_per_workflow (env : GenEnv) (st : ServerState)
    (session_id? mid? status? : Option String) (prompt_new : String) :
    (∀ s u m, (generate_image env st session_id? prompt_new).1
        = GenerateResult.success s u m →
      ((generate_image env st session_id? prompt_new).2).persisted
        = ((generate_image env st session_id? prompt_new).2).sessions) ∧
    (∀ s p u m, (regenerate env st mid?).1 = RegenerateResult.success s p u m →
      ((regenerate env st mid?).2).persisted = ((regenerate env st mid?).2).sessions) ∧
    ((update_status st mid? status?).1 = UpdateStatusResult.success →
      ((update_status st mid? status?).2).persisted
        = ((update_status st mid? status?).2).sessions) := by
  refine ⟨?_, ?_, ?_⟩
  · intro s u m hsucc
    by_cases hpe : prompt_new = ""
    · subst hpe
      simp [generate_image] at hsucc
    · cases hG : env.generate
          (resolve_session_and_prompt env st.sessions session_id? prompt_new).2.1 with
      | error e =>
        rw [generate_image_fail env st session_id? prompt_new e hpe hG] at hsucc
        exact absurd hsucc (by simp)
      | ok ip =>
        rw [generate_image_ok env st session_id? prompt_new ip hpe hG]
        simp [save]
  · intro s p u m hsucc
    cases mid? with
    | none => simp [regenerate] at hsucc
    | some mid =>
      by_cases h1 : mid = ""
      · subst h1
        simp [regenerate] at hsucc
      · have h1f : (mid == "") = false := by simp [h1]
        cases hF : SessionManager.find_message_prompt st.sessions mid with
        | none =>
          simp only [regenerate, Option.getD_some, h1f, Bool.false_eq_true,
            if_false, hF] at hsucc
          exact absurd hsucc (by simp)
        | some pr =>
          obtain ⟨sid0, p0⟩ := pr
          by_cases h2 : p0.getD "" = ""
          · simp only [regenerate, Option.getD_some, h1f, Bool.false_eq_true,
              if_false, hF, h2, if_true] at hsucc
            exact absurd hsucc (by simp)
          · have h2f : (p0.getD "" == "") = false := by simp [h2]
            cases hG : env.generate (p0.getD "") with
            | error e =>
              simp only [regenerate, Option.getD_some, h1f, Bool.false_eq_true,
                if_false, hF, h2f, hG] at hsucc
              exact absurd hsucc (by simp)
            | ok ip =>
              rw [regenerate_ok env st mid sid0 p0 ip h1f hF h2f hG]
              simp [save]
  · intro hsucc
    by_cases h1 : (mid?.getD "" == "" || status?.getD "" == "") = true
    · simp only [update_status, h1, if_true] at hsucc
      exact absurd hsucc (by simp)
    · have h1f : (mid?.getD "" == "" || status?.getD "" == "") = false := by
        simpa using h1
      by_cases h2 : (SessionManager.update_message_status st.sessions
          (mid?.getD "") (status?.getD "")).2 = true
      · simp only [update_status, h1f, Bool.false_eq_true, if_false, h2, if_true]
        simp [save]
      · have h2f : (SessionManager.update_message_status st.sessions
            (mid?.getD "") (status?.getD "")).2 = false := by simpa using h2
        simp only [update_status, h1f, Bool.false_eq_true, if_false, h2f] at hsucc
        exact absurd hsucc (by simp)

/-- Witness for persist_once_per_workflow: a successful concrete generate
run ends with the persisted document equal to the in-memory store. -/
theorem persist_once_per_workflow_witness :
    ((generate_image envOk { sessions := [], persisted := [] } none "a cat").2).persisted
      = ((generate_image envOk
          { sessions := [], persisted := [] } none "a cat").2).sessions :=
  (persist_once_per_workflow envOk { sessions := [], persisted := [] }
      none none none "a cat").1
    "01234567" "/static/generated/deadbeef.png" "22222222" (by decide)

theorem findPrompt_of_not_mem (msgs : List Message) (mid : String)
    (h : msgsHaveId msgs mid = false) :
    ∀ prev, SessionManager.findPromptInMessages msgs mid prev = none := by
  induction msgs with
  | nil => intro prev; rfl
  | cons m rest ih =>
    intro prev
    simp only [msgsHaveId, List.any_cons, Bool.or_eq_false_iff] at h
    simp only [SessionManager.findPromptInMessages, h.1, Bool.false_eq_true, if_false]
    exact ih (by simpa [msgsHaveId] using h.2) (some m)

theorem getLast?_cons_or :
    ∀ (tl : List Message) (a : Message) (prev : Option Message),
      (a :: tl).getLast?.or prev = tl.getLast?.or (some a)
  | [], a, prev => by simp
  | b :: tl, a, prev => by
    rw [List.getLast?_cons_cons]
    have hne : (b :: tl).getLast?.isSome := by
      rw [List.getLast?_isSome]
      simp
    obtain ⟨c, hc⟩ := Option.isSome_iff_exists.mp hne
    rw [hc]
    simp [Option.or]

theorem findPrompt_found (ms1 : List Message) (m : Message) (ms2 : List Message)
    (mid : String) (hm : m.id = mid) (h1 : msgsHaveId ms1 mid = false) :
    ∀ prev, SessionManager.findPromptInMessages (ms1 ++ m :: ms2) mid prev
      = some ((ms1.getLast?.or prev).elim m.text
          (fun p => if p.sender = "user" then p.text else m.text)) := by
  induction ms1 with
  | nil =>
    intro prev
    simp only [List.nil_append, SessionManager.findPromptInMessages, hm,
      beq_self_eq_true, if_true]
    cases prev with
    | none => simp
    | some p =>
      by_cases hs : p.sender = "user"
      · simp [hs, Option.or]
      · simp [hs, Option.or]
  | cons a tl ih =>
    intro prev
    simp only [msgsHaveId, List.any_cons, Bool.or_eq_false_iff] at h1
    simp only [List.cons_append, SessionManager.findPromptInMessages, h1.1,
      Bool.false_eq_true, if_false, List.append_eq]
    rw [ih (by simpa [msgsHaveId] using h1.2) (some a)]
    rw [getLast?_cons_or tl a prev]

/-- Claim C3: find_message_prompt locates the first message whose id
matches; it returns the enclosing session id together with the preceding
message's text when that preceding message exists and is user-sent, and
the target message's own text otherwise; an id occurring in no session
yields none. -/
theorem find_message_prompt_spec (store : Store) (mid : String) :
    (∀ pre post sid sess ms1 m ms2,
      store = pre ++ (sid, sess) :: post →
      sess.messages = ms1 ++ m :: ms2 →
      m.id = mid →
      storeHasMsgId pre mid = false →
      msgsHaveId ms1 mid = false →
      SessionManager.find_message_prompt store mid
        = some (sid,
            (ms1.getLast?).elim m.text
              (fun p => if p.sender = "user" then p.text else m.text))) ∧
    (storeHasMsgId store mid = false →
      SessionManager.find_message_prompt store mid = none) := by
  constructor
  · intro pre post sid sess ms1 m ms2 hstore hmsgs hid hpre hms1
    subst hstore
    induction pre with
    | nil =>
      simp only [List.nil_append, SessionManager.find_message_prompt]
      rw [hmsgs, findPrompt_found ms1 m ms2 mid hid hms1 none]
      cases hL : ms1.getLast? with
      | none => simp [Option.or]
      | some p => simp [Option.or]
    | cons hd tl ih =>
      obtain ⟨k0, s0⟩ := hd
      simp only [storeHasMsgId, List.any_cons, Bool.or_eq_false_iff] at hpre
      simp only [List.cons_append, SessionManager.find_message_prompt]
      rw [findPrompt_of_not_mem s0.messages mid hpre.1 none]
      exact ih (by simpa [storeHasMsgId] using hpre.2)
  · intro hnone
    induction store with
    | nil => rfl
    | cons hd tl ih =>
      obtain ⟨k0, s0⟩ := hd
      simp only [storeHasMsgId, List.any_cons, Bool.or_eq_false_iff] at hnone
      simp only [SessionManager.find_message_prompt]
      rw [findPrompt_of_not_mem s0.messages mid hnone.1 none]
      exact ih (by simpa [storeHasMsgId] using hnone.2)

/-- Witness for find_message_prompt_spec: the bot message m3 is preceded
by the user message m2 whose text is the empty string, and an unknown id
resolves to none. -/
theorem find_message_prompt_spec_witness :
    SessionManager.find_message_prompt exampleStoreC4 "m3" = some ("s1", some "") ∧
    SessionManager.find_message_prompt exampleStoreC4 "zz" = none := by
  constructor
  · have h := (find_message_prompt_spec exampleStoreC4 "m3").1 [] []
      "s1" { title := "a", messages := exampleMessagesC4 }
      [ { id := "m1", sender := "user", text := some "a" },
        { id := "m2", sender := "user", text := some "" } ]
      { id := "m3", sender := "bot", text := some "pic",
        image_url := some "/static/generated/x.png" }
      [ { id := "m4", sender := "user", text := some "b" } ]
      rfl rfl rfl (by decide) (by decide)
    exact h
  · exact (find_message_prompt_spec exampleStoreC4 "zz").2 (by decide)

theorem setMsgStatus_not_found (msgs : List Message) (mid status : String)
    (h : msgsHaveId msgs mid = false) :
    SessionManager.setMsgStatus msgs mid status = (msgs, false) := by
  induction msgs with
  | nil => rfl
  | cons m rest ih =>
    simp only [msgsHaveId, List.any_cons, Bool.or_eq_false_iff] at h
    simp only [SessionManager.setMsgStatus, h.1, Bool.false_eq_true, if_false]
    rw [ih (by simpa [msgsHaveId] using h.2)]

theorem setMsgStatus_found (ms1 : List Message) (m : Message) (ms2 : List Message)
    (mid status : String) (hm : m.id = mid) (h1 : msgsHaveId ms1 mid = false) :
    SessionManager.setMsgStatus (ms1 ++ m :: ms2) mid status
      = (ms1 ++ { m with status := some status } :: ms2, true) := by
  induction ms1 with
  | nil =>
    simp only [List.nil_append, SessionManager.setMsgStatus, hm,
      beq_self_eq_true, if_true]
  | cons a tl ih =>
    simp only [msgsHaveId, List.any_cons, Bool.or_eq_false_iff] at h1
    simp only [List.cons_append, SessionManager.setMsgStatus, h1.1,
      Bool.false_eq_true, if_false, List.append_eq]
    rw [ih (by simpa [msgsHaveId] using h1.2)]

theorem update_message_status_not_found (store : Store) (mid status : String)
    (h : storeHasMsgId store mid = false) :
    SessionManager.update_message_status store mid status = (store, false) := by
  induction store with
  | nil => rfl
  | cons hd tl ih =>
    obtain ⟨k0, s0⟩ := hd
    simp only [storeHasMsgId, List.any_cons, Bool.or_eq_false_iff] at h
    simp only [SessionManager.update_message_status]
    rw [setMsgStatus_not_found s0.messages mid status h.1]
    simp only [Bool.false_eq_true, if_false]
    rw [ih (by simpa [storeHasMsgId] using h.2)]

/-- Claim C8: update_message_status scans all sessions for the first
message with the given id, sets its status field and returns true when
found; on an id held by no message it returns false, the store is
unchanged, and the update_status route answers not-found while leaving the
whole server state (persisted document included) unchanged. -/
theorem update_message_status_spec (store : Store) (mid status : String) :
    (∀ pre post sid sess ms1 m ms2,
      store = pre ++ (sid, sess) :: post →
      sess.messages = ms1 ++ m :: ms2 →
      m.id = mid →
      storeHasMsgId pre mid = false →
      msgsHaveId ms1 mid = false →
      SessionManager.update_message_status store mid status
        = (pre ++ (sid, { sess with
              messages := ms1 ++ { m with status := some status } :: ms2 }) :: post,
           true)) ∧
    (storeHasMsgId store mid = false →
      SessionManager.update_message_status store mid status = (store, false) ∧
      ∀ st : ServerState, st.sessions = store → mid ≠ "" → status ≠ "" →
        update_status st (some mid) (some status)
          = (UpdateStatusResult.messageNotFound, st)) := by
  constructor
  · intro pre post sid sess ms1 m ms2 hstore hmsgs hid hpre hms1
    subst hstore
    induction pre with
    | nil =>
      simp only [List.nil_append, SessionManager.update_message_status]
      rw [hmsgs, setMsgStatus_found ms1 m ms2 mid status hid hms1]
      simp
    | cons hd tl ih =>
      obtain ⟨k0, s0⟩ := hd
      simp only [storeHasMsgId, List.any_cons, Bool.or_eq_false_iff] at hpre
      simp only [List.cons_append, SessionManager.update_message_status,
        List.append_eq]
      rw [setMsgStatus_not_found s0.messages mid status hpre.1]
      simp only [Bool.false_eq_true, if_false]
      rw [ih (by simpa [storeHasMsgId] using hpre.2)]
  · intro hnone
    refine ⟨update_message_status_not_found store mid status hnone, ?_⟩
    intro st hst hmid hstatus
    subst hst
    have hcond : (mid == "" || status == "") = false := by simp [hmid, hstatus]
    simp only [update_status, Option.getD_some, hcond, Bool.false_eq_true, if_false]
    rw [update_message_status_not_found st.sessions mid status hnone]
    simp

/-- Witness for update_message_status_spec: an unknown message id returns
false, and the route leaves the server state untouched. -/
theorem update_message_status_spec_witness :
    SessionManager.update_message_status exampleStoreC4 "zz" "like"
      = (exampleStoreC4, false) ∧
    update_status { sessions := exampleStoreC4, persisted := exampleStoreC4 }
        (some "zz") (some "like")
      = (UpdateStatusResult.messageNotFound,
         { sessions := exampleStoreC4, persisted := exampleStoreC4 }) := by
  have h := (update_message_status_spec exampleStoreC4 "zz" "like").2 (by decide)
  exact ⟨h.1, h.2 { sessions := exampleStoreC4, persisted := exampleStoreC4 }
    rfl (by decide) (by decide)⟩

theorem get_add_message3 (store : Store) (k : String) (m1 m2 m3 : Message)
    (sess : Session) (h : SessionManager.get store k = some sess) :
    SessionManager.get
        (SessionManager.add_message (SessionManager.add_message
          (SessionManager.add_message store k m1) k m2) k m3) k
      = some { sess with messages := sess.messages ++ [m1, m2, m3] } := by
  have h1 := SessionManager.get_add_message store k m1 sess h
  have h2 := SessionManager.get_add_message _ k m2 _ h1
  have h3 := SessionManager.get_add_message _ k m3 _ h2
  rw [h3]
  simp

/-- Claim C5: a successful new-generation run appends exactly three
messages to the target session, in order: a user message whose text is the
raw prompt_new, a bot message carrying the image reference and the
decorated caption embedding the effective prompt with status none, and the
fixed closing acknowledgement bot message with no image; the response
carries the session id, the image reference, and the bot message id. -/
theorem generate_success_appends (env : GenEnv) (st : ServerState)
    (session_id? : Option String) (prompt_new image_path sid p : String)
    (store1 : Store)
    (hp : prompt_new ≠ "")
    (hr : resolve_session_and_prompt env st.sessions session_id? prompt_new
        = (sid, p, store1))
    (hok : env.generate p = Except.ok image_path) :
    (generate_image env st session_id? prompt_new).1
      = GenerateResult.success sid ("/static/" ++ image_path)
          (env.botUuidHex.take 8) ∧
    ∃ sess1, SessionManager.get store1 sid = some sess1 ∧
      SessionManager.get
          ((generate_image env st session_id? prompt_new).2).sessions sid
        = some { sess1 with messages := sess1.messages ++
            [ { id := env.userUuidHex.take 8, sender := "user",
                text := some prompt_new, image_url := none, status := none },
              { id := env.botUuidHex.take 8, sender := "bot",
                image_url := some ("/static/" ++ image_path),
                text := some ("Image is generated from prompt:\n" ++ p),
                status := none },
              { id := env.boomUuidHex.take 8, sender := "bot",
                text := some boomText, image_url := none, status := none } ] } := by
  have hok2 : env.generate
      (resolve_session_and_prompt env st.sessions session_id? prompt_new).2.1
      = Except.ok image_path := by
    rw [hr]
    exact hok
  have hG := generate_image_ok env st session_id? prompt_new image_path hp hok2
  obtain ⟨sess1, hs1⟩ :=
    resolve_get_target env st.sessions session_id? prompt_new sid p store1 hr
  refine ⟨?_, sess1, hs1, ?_⟩
  · rw [hG, hr]
  · have hfinal : ((generate_image env st session_id? prompt_new).2).sessions
        = SessionManager.add_message (SessionManager.add_message
            (SessionManager.add_message store1 sid
              { id := env.userUuidHex.take 8, sender := "user",
                text := some prompt_new, image_url := none, status := none })
            sid
            { id := env.botUuidHex.take 8, sender := "bot",
              image_url := some ("/static/" ++ image_path),
              text := some ("Image is generated from prompt:\n" ++ p),
              status := none })
            sid
            { id := env.boomUuidHex.take 8, sender := "bot",
              text := some boomText, image_url := none, status := none } := by
      rw [hG, hr]
      rfl
    rw [hfinal]
    exact get_add_message3 store1 sid _ _ _ sess1 hs1

set_option maxRecDepth 4000 in
/-- Witness for generate_success_appends: a concrete successful generate
into a fresh store returns the created session id, the image reference and
the bot message id. -/
theorem generate_success_appends_witness :
    (generate_image envOk { sessions := [], persisted := [] } none "a cat").1
      = GenerateResult.success "01234567" "/static/generated/deadbeef.png"
          "22222222" :=
  (generate_success_appends envOk { sessions := [], persisted := [] } none
    "a cat" "generated/deadbeef.png" "01234567" "a cat"
    [("01234567", { title := "a cat", messages := [] })]
    (by decide) (by decide) rfl).1

theorem find_message_prompt_get (store : Store) (mid sid : String)
    (t : Option String)
    (h : SessionManager.find_message_prompt store mid = some (sid, t)) :
    ∃ sess, SessionManager.get store sid = some sess := by
  induction store with
  | nil => simp [SessionManager.find_message_prompt] at h
  | cons hd tl ih =>
    obtain ⟨k0, s0⟩ := hd
    simp only [SessionManager.find_message_prompt] at h
    cases hfp : SessionManager.findPromptInMessages s0.messages mid none with
    | some t0 =>
      simp only [hfp] at h
      injection h with h1
      injection h1 with hk ht
      subst hk
      exact ⟨s0, by simp [SessionManager.get]⟩
    | none =>
      simp only [hfp] at h
      obtain ⟨sess, hs⟩ := ih h
      by_cases hk : k0 = sid
      · subst hk
        exact ⟨s0, by simp [SessionManager.get]⟩
      · exact ⟨sess, by simp [SessionManager.get, hk, hs]⟩

theorem storeHasMsgId_setSession_empty (store : Store) (k t bid : String)
    (h : storeHasMsgId store bid = false) :
    storeHasMsgId
        (SessionManager.setSession store k { title := t, messages := [] }) bid
      = false := by
  induction store with
  | nil => simp [SessionManager.setSession, storeHasMsgId, msgsHaveId]
  | cons hd tl ih =>
    obtain ⟨k0, s0⟩ := hd
    simp only [storeHasMsgId, List.any_cons, Bool.or_eq_false_iff] at h
    by_cases hk : k0 = k
    · subst hk
      simp only [SessionManager.setSession, beq_self_eq_true, if_true,
        storeHasMsgId, List.any_cons, msgsHaveId, List.any_nil, Bool.false_or]
      simpa [storeHasMsgId, msgsHaveId] using h.2
    · have hkb : (k0 == k) = false := by simp [hk]
      simp only [SessionManager.setSession, hkb, Bool.false_eq_true, if_false,
        storeHasMsgId, List.any_cons, Bool.or_eq_false_iff]
      refine ⟨by simpa using h.1, ?_⟩
      simpa [storeHasMsgId] using ih (by simpa [storeHasMsgId] using h.2)

theorem find_after_append3 (store : Store) (sid : String) (sess : Session)
    (u b c : Message) (bid : String)
    (hget : SessionManager.get store sid = some sess)
    (hfree : storeHasMsgId store bid = false)
    (hb : b.id = bid) (hu : u.id ≠ bid) (hus : u.sender = "user") :
    SessionManager.find_message_prompt
        (SessionManager.add_message (SessionManager.add_message
          (SessionManager.add_message store sid u) sid b) sid c) bid
      = some (sid, u.text) := by
  induction store with
  | nil => simp [SessionManager.get] at hget
  | cons hd tl ih =>
    obtain ⟨k0, s0⟩ := hd
    simp only [storeHasMsgId, List.any_cons, Bool.or_eq_false_iff] at hfree
    by_cases hk : k0 = sid
    · subst hk
      simp only [SessionManager.add_message, beq_self_eq_true, if_true]
      simp only [SessionManager.find_message_prompt]
      have hfree2 : msgsHaveId (s0.messages ++ [u]) bid = false := by
        have h0 : msgsHaveId s0.messages bid = false := by simpa using hfree.1
        simp only [msgsHaveId, List.any_append, List.any_cons, List.any_nil,
          Bool.or_eq_false_iff] at h0 ⊢
        exact ⟨h0, by simp [hu], trivial⟩
      have hms : ((s0.messages ++ [u]) ++ [b]) ++ [c]
          = (s0.messages ++ [u]) ++ b :: [c] := by simp
      have hfp := findPrompt_found (s0.messages ++ [u]) b [c] bid hb hfree2 none
      rw [List.getLast?_concat] at hfp
      simp only [Option.or, Option.elim, hus, if_true] at hfp
      rw [hms, hfp]
    · have hkb : (k0 == sid) = false := by simp [hk]
      simp only [SessionManager.add_message, hkb, Bool.false_eq_true, if_false]
      simp only [SessionManager.find_message_prompt]
      rw [findPrompt_of_not_mem s0.messages bid (by simpa using hfree.1) none]
      exact ih (by simpa [SessionManager.get, hkb] using hget)
        (by simpa [storeHasMsgId] using hfree.2)

/-- Claim C10: immediately after a successful generate returning session
id s and anchor message id m, find_message_prompt on m returns s together
with the raw prompt_new of that request (never the decorated caption or
the cumulative effective prompt); and immediately after a successful
regenerate returning message id m, the traceback returns the prompt that
the regeneration just replayed. Freshness of the drawn bot message id
(uuid4 collision-freedom) is a hypothesis. -/
theorem traceback_roundtrip (env : GenEnv) (st : ServerState)
    (session_id? mid? : Option String) (prompt_new : String)
    (hfreshBot : storeHasMsgId st.sessions (env.botUuidHex.take 8) = false)
    (hneIds : env.userUuidHex.take 8 ≠ env.botUuidHex.take 8) :
    (∀ s u m, (generate_image env st session_id? prompt_new).1
        = GenerateResult.success s u m →
      SessionManager.find_message_prompt
          ((generate_image env st session_id? prompt_new).2).sessions m
        = some (s, some prompt_new)) ∧
    (∀ s p u m, (regenerate env st mid?).1 = RegenerateResult.success s p u m →
      SessionManager.find_message_prompt
          ((regenerate env st mid?).2).sessions m
        = some (s, some p)) := by
  constructor
  · intro s u m hsucc
    by_cases hpe : prompt_new = ""
    · subst hpe
      simp [generate_image] at hsucc
    · rcases hres : resolve_session_and_prompt env st.sessions session_id? prompt_new
        with ⟨sid, p, store1⟩
      cases hGen : env.generate p with
      | error e =>
        have hfail : env.generate (resolve_session_and_prompt env st.sessions
            session_id? prompt_new).2.1 = Except.error e := by
          rw [hres]
          exact hGen
        rw [generate_image_fail env st session_id? prompt_new e hpe hfail] at hsucc
        exact absurd hsucc (by simp)
      | ok ip =>
        have hok2 : env.generate (resolve_session_and_prompt env st.sessions
            session_id? prompt_new).2.1 = Except.ok ip := by
          rw [hres]
          exact hGen
        have hG := generate_image_ok env st session_id? prompt_new ip hpe hok2
        rw [hG, hres] at hsucc
        simp only [GenerateResult.success.injEq] at hsucc
        obtain ⟨e1, e2, e3⟩ := hsucc
        subst e1
        subst e3
        have hfinal : ((generate_image env st session_id? prompt_new).2).sessions
            = SessionManager.add_message (SessionManager.add_message
                (SessionManager.add_message store1 sid
                  { id := env.userUuidHex.take 8, sender := "user",
                    text := some prompt_new, image_url := none, status := none })
                sid
                { id := env.botUuidHex.take 8, sender := "bot",
                  image_url := some ("/static/" ++ ip),
                  text := some ("Image is generated from prompt:\n" ++ p),
                  status := none })
                sid
                { id := env.boomUuidHex.take 8, sender := "bot",
                  text := some boomText, image_url := none, status := none } := by
          rw [hG, hres]
          rfl
        rw [hfinal]
        have hfree1 : storeHasMsgId store1 (env.botUuidHex.take 8) = false := by
          have hsc := resolve_store_cases env st.sessions session_id? prompt_new
          rw [hres] at hsc
          simp only at hsc
          rcases hsc with hsc | hsc
          · rw [hsc]
            exact hfreshBot
          · rw [hsc]
            exact storeHasMsgId_setSession_empty st.sessions _ _ _ hfreshBot
        obtain ⟨sess1, hs1⟩ :=
          resolve_get_target env st.sessions session_id? prompt_new sid p store1 hres
        have hfa := find_after_append3 store1 sid sess1
          { id := env.userUuidHex.take 8, sender := "user",
            text := some prompt_new, image_url := none, status := none }
          { id := env.botUuidHex.take 8, sender := "bot",
            image_url := some ("/static/" ++ ip),
            text := some ("Image is generated from prompt:\n" ++ p),
            status := none }
          { id := env.boomUuidHex.take 8, sender := "bot",
            text := some boomText, image_url := none, status := none }
          (env.botUuidHex.take 8) hs1 hfree1 (by simp)
          (by simp only []; exact hneIds) (by simp)
        rw [hfa]
  · intro s p u m hsucc
    cases mid? with
    | none => simp [regenerate] at hsucc
    | some mid =>
      by_cases h1 : mid = ""
      · subst h1
        simp [regenerate] at hsucc
      · have h1f : (mid == "") = false := by simp [h1]
        cases hF : SessionManager.find_message_prompt st.sessions mid with
        | none =>
          simp only [regenerate, Option.getD_some, h1f, Bool.false_eq_true,
            if_false, hF] at hsucc
          exact absurd hsucc (by simp)
        | some pr =>
          obtain ⟨sid0, p0⟩ := pr
          by_cases h2 : p0.getD "" = ""
          · simp only [regenerate, Option.getD_some, h1f, Bool.false_eq_true,
              if_false, hF, h2, if_true] at hsucc
            exact absurd hsucc (by simp)
          · have h2f : (p0.getD "" == "") = false := by simp [h2]
            cases hGen : env.generate (p0.getD "") with
            | error e =>
              simp only [regenerate, Option.getD_some, h1f, Bool.false_eq_true,
                if_false, hF, h2f, hGen] at hsucc
              exact absurd hsucc (by simp)
            | ok ip =>
              have hR := regenerate_ok env st mid sid0 p0 ip h1f hF h2f hGen
              rw [hR] at hsucc
              simp only [RegenerateResult.success.injEq] at hsucc
              obtain ⟨e1, e2, e3, e4⟩ := hsucc
              subst e1
              subst e2
              subst e4
              have hfinal : ((regenerate env st (some mid)).2).sessions
                  = SessionManager.add_message (SessionManager.add_message
                      (SessionManager.add_message st.sessions sid0
                        { id := env.userUuidHex.take 8, sender := "user",
                          text := some (p0.getD ""), image_url := none,
                          status := none })
                      sid0
                      { id := env.botUuidHex.take 8, sender := "bot",
                        image_url := some ("/static/" ++ ip),
                        text := some (p0.getD ""), status := none })
                      sid0
                      { id := env.boomUuidHex.take 8, sender := "bot",
                        text := some boomText, image_url := none,
                        status := none } := by
                rw [hR]
                rfl
              rw [hfinal]
              obtain ⟨sess0, hs0⟩ :=
                find_message_prompt_get st.sessions mid sid0 p0 hF
              have hfa := find_after_append3 st.sessions sid0 sess0
                { id := env.userUuidHex.take 8, sender := "user",
                  text := some (p0.getD ""), image_url := none, status := none }
                { id := env.botUuidHex.take 8, sender := "bot",
                  image_url := some ("/static/" ++ ip),
                  text := some (p0.getD ""), status := none }
                { id := env.boomUuidHex.take 8, sender := "bot",
                  text := some boomText, image_url := none, status := none }
                (env.botUuidHex.take 8) hs0 hfreshBot (by simp)
                (by simp only []; exact hneIds) (by simp)
              rw [hfa]

set_option maxRecDepth 4000 in
/-- Witness for traceback_roundtrip: after the concrete successful
generate of generate_success_appends_witness, resolving the returned bot
message id yields the session id and the raw prompt. -/
theorem traceback_roundtrip_witness :
    SessionManager.find_message_prompt
        ((generate_image envOk
          { sessions := [], persisted := [] } none "a cat").2).sessions
        "22222222"
      = some ("01234567", some "a cat") :=
  (traceback_roundtrip envOk { sessions := [], persisted := [] }
      none none "a cat" (by decide) (by decide)).1
    "01234567" "/static/generated/deadbeef.png" "22222222" (by decide)
